import Mathlib

/-
Shallow embedding of the NYC Property Violation Monitor
(src/violation_monitor.py) and proofs about its tracking engine.

The program polls four NYC Open Data sources, decides which fetched
records are new by consulting a SQLite table keyed by
(source, violation_id), durably records each new one, and e-mails a
report.  The embedding below translates, from the source file:

  * the persisted table row (TrackedRecord) and the SQLite table as a
    row list (Store);
  * ViolationTracker.is_new_violation and ViolationTracker.track_violation
    (lines 117-145), including the semantics of
    INSERT OR IGNORE against the schema of _init_database (lines 101-112):
    the row is silently skipped both on a UNIQUE(source, violation_id)
    conflict and on a NOT NULL violation, since SQLite's IGNORE conflict
    resolution returns no error for uniqueness and NOT NULL constraint
    violations alike; violation_date is declared NOT NULL, and the callers
    in check_violations pass record.get(date_field), which is None (SQL
    NULL) when the date field is absent from the raw record;
  * the four per-source loops of ViolationMonitor.check_violations
    (lines 279-320), one generic loop check_source instantiated with each
    source's identifier and date field names;
  * NYCDataFetcher._make_request (lines 38-51): a failed request is caught
    and yields [], modelled by running the adapter on an Except value;
  * the four Socrata query constructors get_311_complaints,
    get_hpd_violations, get_oath_violations, get_dob_violations
    (lines 53-87), as the literal parameter strings they build;
  * EmailNotifier.send_violation_report (lines 157-185): the early return
    when no source has new violations, and the try/except around SMTP
    delivery.  The rendered HTML payload is opaque to the core (it feeds
    no further computation), so the outcome type records only whether a
    message was built and whether delivery succeeded.

Machine-level details that cannot affect the claims (logging, the
datetime.now() clock, SQLite connection handling) are parameters or
omitted.
-/

namespace ViolationMonitor

/-- A raw record fetched from a Socrata endpoint: a JSON object, i.e. a
finite field-name-to-value mapping.  Python's dict.get(k) is lookup
returning None when the field is absent. -/
abbrev RawRecord : Type := List (String × String)

/-- Python `record.get(k)`: the value of field k, if present. -/
def RawRecord.get (r : RawRecord) (k : String) : Option String :=
  List.lookup k r

/-- Python truthiness of `record.get(k)` as used in the guards
`if complaint_id and ...`: false for None and for the empty string. -/
def truthy : Option String → Bool
  | none => false
  | some s => !(s == "")

/-- One row of the `violations` table created by
ViolationTracker._init_database.  The AUTOINCREMENT surrogate id is the
row's position in the list. -/
structure TrackedRecord where
  source : String
  violation_id : String
  block : String
  lot : String
  violation_date : String
  created_date : String
deriving DecidableEq, Repr

/-- The `violations` table: rows in insertion order. -/
abbrev Store : Type := List TrackedRecord

/-- Does the store hold a row with this (source, violation_id) key? -/
def hasKey (store : Store) (source violation_id : String) : Bool :=
  store.any fun row => row.source == source && row.violation_id == violation_id

/-- ViolationTracker.is_new_violation: SELECT 1 FROM violations WHERE
source = ? AND violation_id = ?; true iff fetchone() is None.  A pure
read: the connection is opened, queried and closed. -/
def is_new_violation (store : Store) (source violation_id : String) : Bool :=
  !(hasKey store source violation_id)

/-- ViolationTracker.track_violation: INSERT OR IGNORE INTO violations
(source, violation_id, block, lot, violation_date, created_date).
violation_date is the caller's record.get(date_field), hence Option
(None binds as SQL NULL).  The schema declares violation_date NOT NULL
and UNIQUE(source, violation_id); under OR IGNORE, SQLite skips the row
without error on either a NOT NULL or a uniqueness violation, so the
insert happens only when violation_date is non-NULL and the key is not
yet present.  created_date is datetime.now().isoformat(), passed in as
the parameter now. -/
def track_violation (store : Store) (source violation_id block lot : String)
    (violation_date : Option String) (now : String) : Store :=
  match violation_date with
  | none => store
  | some vd =>
      if hasKey store source violation_id then store
      else store ++ [⟨source, violation_id, block, lot, vd, now⟩]

/-- One per-source loop of ViolationMonitor.check_violations
(e.g. lines 280-287 for 311): for each fetched record in order, read
the source-specific identifier field; when it is present, non-empty and
is_new_violation holds, append the raw record to the new-violations
list and track it, passing record.get(dateField) as violation_date.
Returns the new-violations list for this source and the updated store. -/
def check_source (source idField dateField block lot now : String) :
    List RawRecord → Store → List RawRecord × Store
  | [], store => ([], store)
  | r :: rest, store =>
      match r.get idField with
      | none => check_source source idField dateField block lot now rest store
      | some vid =>
          if vid == "" then
            check_source source idField dateField block lot now rest store
          else if is_new_violation store source vid then
            let store' := track_violation store source vid block lot
              (r.get dateField) now
            let tail := check_source source idField dateField block lot now rest store'
            (r :: tail.1, tail.2)
          else
            check_source source idField dateField block lot now rest store

/-- The four data sources of NYCDataFetcher. -/
inductive Source
  | complaints_311
  | hpd_violations
  | oath_violations
  | dob_violations
deriving DecidableEq, Repr

/-- The source-specific identifier field read by check_violations:
unique_key (line 281), violationid (line 292), summons_number
(line 303), isn_dob_bis_viol (line 314). -/
def idFieldOf : Source → String
  | .complaints_311 => "unique_key"
  | .hpd_violations => "violationid"
  | .oath_violations => "summons_number"
  | .dob_violations => "isn_dob_bis_viol"

/-- The source's own date field, used both in the Socrata query and as
the tracked violation_date: created_date, inspectiondate, hearing_date,
issue_date. -/
def dateFieldOf : Source → String
  | .complaints_311 => "created_date"
  | .hpd_violations => "inspectiondate"
  | .oath_violations => "hearing_date"
  | .dob_violations => "issue_date"

/-- The string tag check_violations uses for each source, the keys of
its new_violations dict. -/
def sourceTag : Source → String
  | .complaints_311 => "311_complaints"
  | .hpd_violations => "hpd_violations"
  | .oath_violations => "oath_violations"
  | .dob_violations => "dob_violations"

/-- The Socrata request parameters built by the four NYCDataFetcher
get_* methods: the $where filter, the $order clause and the $limit. -/
structure SocrataParams where
  whereClause : String
  order : String
  limit : Nat
deriving DecidableEq, Repr

/-- NYCDataFetcher.get_311_complaints, lines 53-60. -/
def get_311_complaints (block lot since_date : String) : SocrataParams :=
  { whereClause := "incident_address LIKE '%" ++ block ++ " %" ++ lot
      ++ "%' AND created_date > '" ++ since_date ++ "'"
    order := "created_date DESC"
    limit := 1000 }

/-- NYCDataFetcher.get_hpd_violations, lines 62-69. -/
def get_hpd_violations (block lot since_date : String) : SocrataParams :=
  { whereClause := "block = '" ++ block ++ "' AND lot = '" ++ lot
      ++ "' AND inspectiondate > '" ++ since_date ++ "'"
    order := "inspectiondate DESC"
    limit := 1000 }

/-- NYCDataFetcher.get_oath_violations, lines 71-78. -/
def get_oath_violations (block lot since_date : String) : SocrataParams :=
  { whereClause := "block = '" ++ block ++ "' AND lot = '" ++ lot
      ++ "' AND hearing_date > '" ++ since_date ++ "'"
    order := "hearing_date DESC"
    limit := 1000 }

/-- NYCDataFetcher.get_dob_violations, lines 80-87. -/
def get_dob_violations (block lot since_date : String) : SocrataParams :=
  { whereClause := "block = '" ++ block ++ "' AND lot = '" ++ lot
      ++ "' AND issue_date > '" ++ since_date ++ "'"
    order := "issue_date DESC"
    limit := 1000 }

/-- The query each source's adapter builds. -/
def queryOf : Source → String → String → String → SocrataParams
  | .complaints_311 => get_311_complaints
  | .hpd_violations => get_hpd_violations
  | .oath_violations => get_oath_violations
  | .dob_violations => get_dob_violations

/-- NYCDataFetcher._make_request, lines 38-51: the HTTP response is
either a JSON row list or a requests.RequestException; the exception is
caught, logged and turned into []. -/
def make_request (response : Except String (List RawRecord)) : List RawRecord :=
  match response with
  | .ok rows => rows
  | .error _ => []

/-- One cycle's four HTTP outcomes, one per source, in the order
check_violations issues them. -/
structure FetchEnv where
  r311 : Except String (List RawRecord)
  rhpd : Except String (List RawRecord)
  roath : Except String (List RawRecord)
  rdob : Except String (List RawRecord)

/-- The new_violations dict built by check_violations: one list per
source key. -/
structure NewViolations where
  c311 : List RawRecord
  hpd : List RawRecord
  oath : List RawRecord
  dob : List RawRecord
deriving DecidableEq, Repr

/-- Python `any(violations.values())`: some source's list is non-empty. -/
def anyViolations (nv : NewViolations) : Bool :=
  !nv.c311.isEmpty || !nv.hpd.isEmpty || !nv.oath.isEmpty || !nv.dob.isEmpty

/-- Outcome of EmailNotifier.send_violation_report.  noReport: the early
return on line 159-161, before any message is built.  sent / failed: a
message was assembled from the violations and SMTP delivery succeeded,
or raised and was caught and logged (lines 173-185).  The rendered HTML
body feeds no further computation, so the outcome omits it. -/
inductive ReportOutcome
  | noReport
  | sent
  | failed
deriving DecidableEq, Repr

/-- EmailNotifier.send_violation_report, lines 157-185.  smtp_ok tells
whether the SMTP session would succeed; on failure the exception is
caught inside the method, never propagated, and the store is not
touched (the method has no access to it). -/
def send_violation_report (nv : NewViolations) (smtp_ok : Bool) : ReportOutcome :=
  if !(anyViolations nv) then .noReport
  else if smtp_ok then .sent else .failed

/-- Result of one ViolationMonitor.check_violations cycle: the
new_violations dict, the store after all tracking writes, and the
report outcome. -/
structure CheckResult where
  newViolations : NewViolations
  store : Store
  report : ReportOutcome
deriving DecidableEq, Repr

/-- ViolationMonitor.check_violations, lines 264-327: fetch and filter
the four sources in order (311, HPD, OATH, DOB), threading the store
through the four per-source loops, then hand the new_violations dict to
send_violation_report. -/
def check_violations (env : FetchEnv) (block lot now : String) (smtp_ok : Bool)
    (store : Store) : CheckResult :=
  let p311 := check_source "311_complaints" "unique_key" "created_date"
    block lot now (make_request env.r311) store
  let phpd := check_source "hpd_violations" "violationid" "inspectiondate"
    block lot now (make_request env.rhpd) p311.2
  let poath := check_source "oath_violations" "summons_number" "hearing_date"
    block lot now (make_request env.roath) phpd.2
  let pdob := check_source "dob_violations" "isn_dob_bis_viol" "issue_date"
    block lot now (make_request env.rdob) poath.2
  let nv : NewViolations := ⟨p311.1, phpd.1, poath.1, pdob.1⟩
  ⟨nv, pdob.2, send_violation_report nv smtp_ok⟩

/-- The store operations a run can perform, for the store invariant:
_init_database (CREATE TABLE IF NOT EXISTS: no effect on existing
rows), the read-only existence check, and the idempotent insert. -/
inductive StoreOp
  | initDb
  | query (source violation_id : String)
  | insert (source violation_id block lot : String)
      (violation_date : Option String) (now : String)

/-- Apply one store operation. -/
def applyOp (store : Store) : StoreOp → Store
  | .initDb => store
  | .query _ _ => store
  | .insert s v b l vd now => track_violation store s v b l vd now

/-- Run a sequence of store operations from the empty store. -/
def runOps (ops : List StoreOp) : Store :=
  ops.foldl applyOp []

/-- The UNIQUE(source, violation_id) invariant: no later row repeats an
earlier row's key. -/
def uniqueKeys : Store → Bool
  | [] => true
  | r :: rest =>
      !(rest.any fun r2 => r2.source == r.source && r2.violation_id == r.violation_id)
        && uniqueKeys rest

/-- Number of rows holding a given (source, violation_id) key. -/
def countKey (store : Store) (source violation_id : String) : Nat :=
  (store.filter fun row => row.source == source && row.violation_id == violation_id).length
/-! Supporting lemmas about the store operations. -/

/-- Appending one row extends the key-existence check disjunctively. -/
lemma hasKey_append_single (s : Store) (row : TrackedRecord) (src vid : String) :
    hasKey (s ++ [row]) src vid
      = (hasKey s src vid || (row.source == src && row.violation_id == vid)) := by
  simp [hasKey, List.any_append]

/-- INSERT OR IGNORE on a key already present leaves the table unchanged,
whatever the other column values are. -/
lemma track_noop_of_hasKey (s : Store) (src vid b l : String) (vd : Option String)
    (n : String) (h : hasKey s src vid = true) :
    track_violation s src vid b l vd n = s := by
  unfold track_violation
  cases vd <;> simp [h]

/-- After an insert with a non-NULL violation_date, the key is present. -/
lemma hasKey_track_self (s : Store) (src vid b l vd n : String) :
    hasKey (track_violation s src vid b l (some vd) n) src vid = true := by
  unfold track_violation
  cases hk : hasKey s src vid <;> simp [hk, hasKey_append_single]

/-- A key the existence check does not find occupies no row. -/
lemma countKey_eq_zero_of_not_hasKey (s : Store) (src vid : String)
    (h : hasKey s src vid = false) : countKey s src vid = 0 := by
  induction s with
  | nil => rfl
  | cons r rest ih =>
      rw [hasKey, List.any_cons, Bool.or_eq_false_iff] at h
      rw [countKey, List.filter_cons, h.1]
      exact ih (by rw [hasKey]; exact h.2)

/-- A key the existence check finds occupies at least one row. -/
lemma countKey_pos_of_hasKey (s : Store) (src vid : String)
    (h : hasKey s src vid = true) : 1 ≤ countKey s src vid := by
  induction s with
  | nil => simp [hasKey] at h
  | cons r rest ih =>
      rw [hasKey, List.any_cons] at h
      rw [countKey, List.filter_cons]
      cases hr : (r.source == src && r.violation_id == vid) with
      | true => simp
      | false =>
          rw [hr, Bool.false_or] at h
          exact ih (by rw [hasKey]; exact h)

/-- Under the uniqueness invariant no key occupies two rows. -/
lemma countKey_le_one_of_uniq (s : Store) (src vid : String)
    (hu : uniqueKeys s = true) : countKey s src vid ≤ 1 := by
  induction s with
  | nil => simp [countKey]
  | cons r rest ih =>
      rw [uniqueKeys, Bool.and_eq_true, Bool.not_eq_true'] at hu
      rw [countKey, List.filter_cons]
      cases hr : (r.source == src && r.violation_id == vid) with
      | false => exact ih hu.2
      | true =>
          rw [Bool.and_eq_true, beq_iff_eq, beq_iff_eq] at hr
          have h1 := hu.1
          rw [hr.1, hr.2] at h1
          have hz : countKey rest src vid = 0 :=
            countKey_eq_zero_of_not_hasKey rest src vid (by rw [hasKey]; exact h1)
          rw [countKey] at hz
          simp [hz]

/-- Under the uniqueness invariant a present key occupies exactly one row. -/
lemma countKey_of_uniq (s : Store) (src vid : String)
    (hu : uniqueKeys s = true) (hk : hasKey s src vid = true) :
    countKey s src vid = 1 := by
  have h1 := countKey_pos_of_hasKey s src vid hk
  have h2 := countKey_le_one_of_uniq s src vid hu
  omega

/-- Appending a row whose key is absent preserves the uniqueness invariant. -/
lemma uniqueKeys_append_single (s : Store) (row : TrackedRecord)
    (hu : uniqueKeys s = true)
    (hk : hasKey s row.source row.violation_id = false) :
    uniqueKeys (s ++ [row]) = true := by
  induction s with
  | nil => simp [uniqueKeys]
  | cons r rest ih =>
      rw [hasKey, List.any_cons, Bool.or_eq_false_iff] at hk
      rw [uniqueKeys, Bool.and_eq_true, Bool.not_eq_true'] at hu
      rw [List.cons_append, uniqueKeys, Bool.and_eq_true, Bool.not_eq_true']
      refine ⟨?_, ih hu.2 (by rw [hasKey]; exact hk.2)⟩
      rw [List.any_append, Bool.or_eq_false_iff]
      refine ⟨hu.1, ?_⟩
      simp only [List.any_cons, List.any_nil, Bool.or_false]
      cases hq : (row.source == r.source && row.violation_id == r.violation_id) with
      | false => rfl
      | true =>
          exfalso
          rw [Bool.and_eq_true, beq_iff_eq, beq_iff_eq] at hq
          have h1 := hk.1
          rw [hq.1, hq.2] at h1
          simp at h1

/-- track_violation preserves the uniqueness invariant. -/
lemma uniqueKeys_track (s : Store) (src vid b l : String) (vd : Option String)
    (n : String) (hu : uniqueKeys s = true) :
    uniqueKeys (track_violation s src vid b l vd n) = true := by
  unfold track_violation
  cases vd with
  | none => exact hu
  | some d =>
      cases hk : hasKey s src vid with
      | true => simpa using hu
      | false => simpa using uniqueKeys_append_single s ⟨src, vid, b, l, d, n⟩ hu hk

/-- Every run of store operations preserves the uniqueness invariant. -/
lemma uniqueKeys_foldl (ops : List StoreOp) (s : Store) (hu : uniqueKeys s = true) :
    uniqueKeys (ops.foldl applyOp s) = true := by
  induction ops generalizing s with
  | nil => exact hu
  | cons op rest ih =>
      rw [List.foldl_cons]
      refine ih _ ?_
      cases op with
      | initDb => exact hu
      | query a b => exact hu
      | insert a b c d vd n => exact uniqueKeys_track _ _ _ _ _ _ _ hu

/-- Splitting one string literal of a concatenation into three pieces. -/
lemma append_split_key (a b c abc : String) (h : a ++ b ++ c = abc) (X : String) :
    a ++ (b ++ (c ++ X)) = abc ++ X := by
  rw [← String.append_assoc, ← String.append_assoc]
  exact congrArg (fun t => t ++ X) h

/-! Claim theorems. -/

/-- C1 (code bug, failing evaluation): for the raw record
{unique_key: "X1"} with no created_date field, the 311 loop of
check_violations reports the record as novel, yet track_violation
leaves the store empty (its INSERT OR IGNORE row is skipped because the
NOT NULL violation_date receives NULL), so a second run over the same
input reports the very same record as novel again — the claim's second
run is not empty. -/
theorem claim_C1_second_run_not_empty :
    (check_source "311_complaints" "unique_key" "created_date" "833" "21" "t1"
        [[("unique_key", "X1")]] []).1 = [[("unique_key", "X1")]]
    ∧ (check_source "311_complaints" "unique_key" "created_date" "833" "21" "t1"
        [[("unique_key", "X1")]] []).2 = []
    ∧ (check_source "311_complaints" "unique_key" "created_date" "833" "21" "t2"
        [[("unique_key", "X1")]]
        (check_source "311_complaints" "unique_key" "created_date" "833" "21" "t1"
          [[("unique_key", "X1")]] []).2).1 = [[("unique_key", "X1")]] := by
  decide

/-- C2: from any store satisfying the uniqueness invariant, calling
track_violation twice with the same (source, violation_id) key — the
first call with a string violation_date, as the declared signature
types it — leaves the second call a no-op (the store, hence the row
written by the first call with its block, lot, violation_date and
created_date, is unchanged) and leaves exactly one row for that key.
Both calls are total functions: no error is raised. -/
theorem claim_C2 (store : Store) (src vid b1 l1 vd1 n1 b2 l2 : String)
    (vd2 : Option String) (n2 : String) (hu : uniqueKeys store = true) :
    track_violation (track_violation store src vid b1 l1 (some vd1) n1)
        src vid b2 l2 vd2 n2
      = track_violation store src vid b1 l1 (some vd1) n1
    ∧ countKey (track_violation (track_violation store src vid b1 l1 (some vd1) n1)
        src vid b2 l2 vd2 n2) src vid = 1 := by
  have hid := track_noop_of_hasKey (track_violation store src vid b1 l1 (some vd1) n1)
    src vid b2 l2 vd2 n2 (hasKey_track_self store src vid b1 l1 vd1 n1)
  refine ⟨hid, ?_⟩
  rw [hid]
  exact countKey_of_uniq _ _ _ (uniqueKeys_track store src vid b1 l1 (some vd1) n1 hu)
    (hasKey_track_self store src vid b1 l1 vd1 n1)

/-- C2 witness: the double insert of key (oath_violations, S9) into the
empty store, which satisfies the invariant. -/
theorem claim_C2_witness :
    uniqueKeys ([] : Store) = true
    ∧ (track_violation (track_violation [] "oath_violations" "S9" "833" "21"
          (some "2025-02-01") "t1") "oath_violations" "S9" "833" "21"
          (some "2025-02-02") "t2"
        = track_violation [] "oath_violations" "S9" "833" "21" (some "2025-02-01") "t1"
      ∧ countKey (track_violation (track_violation [] "oath_violations" "S9" "833" "21"
          (some "2025-02-01") "t1") "oath_violations" "S9" "833" "21"
          (some "2025-02-02") "t2") "oath_violations" "S9" = 1) :=
  ⟨rfl, claim_C2 [] "oath_violations" "S9" "833" "21" "2025-02-01" "t1" "833" "21"
    (some "2025-02-02") "t2" rfl⟩

/-- C3: every sequence of store operations run from the empty store —
schema initialization, existence checks and inserts — yields a table in
which no two rows share a (source, violation_id) pair, and inserting a
pair that is already present is a silent no-op: no error (the function
is total) and no second row (the store is returned unchanged). -/
theorem claim_C3 :
    (∀ ops : List StoreOp, uniqueKeys (runOps ops) = true)
    ∧ (∀ (store : Store) (src vid b l : String) (vd : Option String) (n : String),
        hasKey store src vid = true → track_violation store src vid b l vd n = store) :=
  ⟨fun ops => uniqueKeys_foldl ops [] rfl,
   fun store src vid b l vd n h => track_noop_of_hasKey store src vid b l vd n h⟩

/-- C3 witness: inserting the key (hpd_violations, V1) twice from the
empty store keeps unique keys, and the duplicate insert into the
one-row store is the identity. -/
theorem claim_C3_witness :
    uniqueKeys (runOps
      [StoreOp.insert "hpd_violations" "V1" "833" "21" (some "2025-01-02") "t1",
       StoreOp.insert "hpd_violations" "V1" "833" "21" (some "2025-01-03") "t2"]) = true
    ∧ hasKey [⟨"hpd_violations", "V1", "833", "21", "2025-01-02", "t1"⟩]
        "hpd_violations" "V1" = true
    ∧ track_violation [⟨"hpd_violations", "V1", "833", "21", "2025-01-02", "t1"⟩]
        "hpd_violations" "V1" "833" "21" (some "2025-01-03") "t2"
      = [⟨"hpd_violations", "V1", "833", "21", "2025-01-02", "t1"⟩] :=
  ⟨claim_C3.1 _, by decide,
   claim_C3.2 [⟨"hpd_violations", "V1", "833", "21", "2025-01-02", "t1"⟩]
     "hpd_violations" "V1" "833" "21" (some "2025-01-03") "t2" (by decide)⟩

/-- C4: a raw record whose identifier field is absent or empty is
skipped entirely by the per-source loop: dropping all such records from
the input changes neither the novel-record list nor the resulting store
(so nothing is ever inserted for them), and every record of the novel
output has a present, non-empty identifier. -/
theorem claim_C4 (source idField dateField block lot now : String)
    (records : List RawRecord) (store : Store) :
    check_source source idField dateField block lot now
        (records.filter fun r => truthy (r.get idField)) store
      = check_source source idField dateField block lot now records store
    ∧ ∀ r ∈ (check_source source idField dateField block lot now records store).1,
        truthy (r.get idField) = true := by
  induction records generalizing store with
  | nil =>
      refine ⟨rfl, ?_⟩
      intro r hr
      simp [check_source] at hr
  | cons r rest ih =>
      cases hget : r.get idField with
      | none =>
          have hstep : check_source source idField dateField block lot now (r :: rest) store
              = check_source source idField dateField block lot now rest store := by
            simp [check_source, hget]
          have htr : truthy (r.get idField) = false := by rw [hget]; rfl
          refine ⟨?_, ?_⟩
          · rw [List.filter_cons, htr, if_neg (by simp), hstep]
            exact (ih store).1
          · rw [hstep]
            exact (ih store).2
      | some vid =>
          cases hv : (vid == "") with
          | true =>
              have hstep : check_source source idField dateField block lot now
                  (r :: rest) store
                  = check_source source idField dateField block lot now rest store := by
                simp [check_source, hget, hv]
              have htr : truthy (r.get idField) = false := by
                rw [hget]; simp [truthy, hv]
              refine ⟨?_, ?_⟩
              · rw [List.filter_cons, htr, if_neg (by simp), hstep]
                exact (ih store).1
              · rw [hstep]
                exact (ih store).2
          | false =>
              have htr : truthy (r.get idField) = true := by
                rw [hget]; simp [truthy, hv]
              cases hnew : is_new_violation store source vid with
              | true =>
                  have hstep : check_source source idField dateField block lot now
                      (r :: rest) store
                      = (r :: (check_source source idField dateField block lot now rest
                            (track_violation store source vid block lot (r.get dateField) now)).1,
                         (check_source source idField dateField block lot now rest
                            (track_violation store source vid block lot (r.get dateField) now)).2) := by
                    simp [check_source, hget, hv, hnew]
                  refine ⟨?_, ?_⟩
                  · rw [List.filter_cons, htr, if_pos rfl, hstep]
                    have hstep2 : check_source source idField dateField block lot now
                        (r :: rest.filter fun x => truthy (x.get idField))
                        store
                        = (r :: (check_source source idField dateField block lot now
                              (rest.filter fun x => truthy (x.get idField))
                              (track_violation store source vid block lot (r.get dateField) now)).1,
                           (check_source source idField dateField block lot now
                              (rest.filter fun x => truthy (x.get idField))
                              (track_violation store source vid block lot (r.get dateField) now)).2) := by
                      simp [check_source, hget, hv, hnew]
                    rw [hstep2,
                      (ih (track_violation store source vid block lot (r.get dateField) now)).1]
                  · rw [hstep]
                    intro x hx
                    rcases List.mem_cons.mp hx with h | h
                    · subst h; exact htr
                    · exact (ih (track_violation store source vid block lot
                        (r.get dateField) now)).2 x h
              | false =>
                  have hstep : check_source source idField dateField block lot now
                      (r :: rest) store
                      = check_source source idField dateField block lot now rest store := by
                    simp [check_source, hget, hv, hnew]
                  refine ⟨?_, ?_⟩
                  · rw [List.filter_cons, htr, if_pos rfl]
                    have hstep2 : check_source source idField dateField block lot now
                        (r :: rest.filter fun x => truthy (x.get idField)) store
                        = check_source source idField dateField block lot now
                            (rest.filter fun x => truthy (x.get idField)) store := by
                      simp [check_source, hget, hv, hnew]
                    rw [hstep2, hstep]
                    exact (ih store).1
                  · rw [hstep]
                    exact (ih store).2

/-- C4 witness: a record without the unique_key field is dropped from a
311 input without effect, and a record of the novel output has a truthy
identifier. -/
theorem claim_C4_witness :
    (check_source "311_complaints" "unique_key" "created_date" "833" "21" "t"
        (List.filter (fun r => truthy (RawRecord.get r "unique_key"))
          [[("descriptor", "noise")], [("unique_key", "A"), ("created_date", "d")]]) []
      = check_source "311_complaints" "unique_key" "created_date" "833" "21" "t"
          [[("descriptor", "noise")], [("unique_key", "A"), ("created_date", "d")]] [])
    ∧ truthy (RawRecord.get [("unique_key", "A"), ("created_date", "d")] "unique_key")
        = true :=
  ⟨(claim_C4 "311_complaints" "unique_key" "created_date" "833" "21" "t"
      [[("descriptor", "noise")], [("unique_key", "A"), ("created_date", "d")]] []).1,
   (claim_C4 "311_complaints" "unique_key" "created_date" "833" "21" "t"
      [[("descriptor", "noise")], [("unique_key", "A"), ("created_date", "d")]] []).2
     [("unique_key", "A"), ("created_date", "d")] (by decide)⟩

/-- C5: the four per-source identifier fields — unique_key for 311,
violationid for HPD, summons_number for OATH, isn_dob_bis_viol for
DOB — are pairwise distinct, and check_violations extracts each
source's external id with exactly that source's field (its four loops
are check_source applied to idFieldOf of the respective source). -/
theorem claim_C5 :
    ([idFieldOf Source.complaints_311, idFieldOf Source.hpd_violations,
      idFieldOf Source.oath_violations, idFieldOf Source.dob_violations] : List String).Nodup
    ∧ ∀ (env : FetchEnv) (block lot now : String) (smtp : Bool) (store : Store),
        (check_violations env block lot now smtp store).newViolations
          = (let p1 := check_source (sourceTag Source.complaints_311)
               (idFieldOf Source.complaints_311) (dateFieldOf Source.complaints_311)
               block lot now (make_request env.r311) store;
             let p2 := check_source (sourceTag Source.hpd_violations)
               (idFieldOf Source.hpd_violations) (dateFieldOf Source.hpd_violations)
               block lot now (make_request env.rhpd) p1.2;
             let p3 := check_source (sourceTag Source.oath_violations)
               (idFieldOf Source.oath_violations) (dateFieldOf Source.oath_violations)
               block lot now (make_request env.roath) p2.2;
             let p4 := check_source (sourceTag Source.dob_violations)
               (idFieldOf Source.dob_violations) (dateFieldOf Source.dob_violations)
               block lot now (make_request env.rdob) p3.2;
             NewViolations.mk p1.1 p2.1 p3.1 p4.1) :=
  ⟨by decide, fun env block lot now smtp store => rfl⟩

/-- C6: every source's Socrata query caps results at 1000, orders them
descending (newest first) by that source's own date field, and its
where-filter is a concatenation placing the source's date field
strictly after the cutoff (dateField > 'since_date') and mentioning the
subject's block and lot. -/
theorem claim_C6 (s : Source) (block lot since_date : String) :
    (queryOf s block lot since_date).limit = 1000
    ∧ (queryOf s block lot since_date).order = dateFieldOf s ++ " DESC"
    ∧ (∃ p, (queryOf s block lot since_date).whereClause
        = p ++ (dateFieldOf s ++ (" > '" ++ (since_date ++ "'"))))
    ∧ (∃ u v w, (queryOf s block lot since_date).whereClause
        = u ++ (block ++ (v ++ (lot ++ w)))) := by
  cases s with
  | complaints_311 =>
      refine ⟨rfl, ?_,
        ⟨"incident_address LIKE '%" ++ (block ++ (" %" ++ (lot ++ "%' AND "))), ?_⟩,
        ⟨"incident_address LIKE '%", " %",
          "%' AND created_date > '" ++ (since_date ++ "'"), ?_⟩⟩
      · simp only [queryOf, get_311_complaints, dateFieldOf]
        decide
      · simp only [queryOf, get_311_complaints, dateFieldOf, String.append_assoc]
        rw [append_split_key "%' AND " "created_date" " > '"
          "%' AND created_date > '" (by decide)]
      · simp only [queryOf, get_311_complaints, String.append_assoc]
  | hpd_violations =>
      refine ⟨rfl, ?_,
        ⟨"block = '" ++ (block ++ ("' AND lot = '" ++ (lot ++ "' AND "))), ?_⟩,
        ⟨"block = '", "' AND lot = '",
          "' AND inspectiondate > '" ++ (since_date ++ "'"), ?_⟩⟩
      · simp only [queryOf, get_hpd_violations, dateFieldOf]
        decide
      · simp only [queryOf, get_hpd_violations, dateFieldOf, String.append_assoc]
        rw [append_split_key "' AND " "inspectiondate" " > '"
          "' AND inspectiondate > '" (by decide)]
      · simp only [queryOf, get_hpd_violations, String.append_assoc]
  | oath_violations =>
      refine ⟨rfl, ?_,
        ⟨"block = '" ++ (block ++ ("' AND lot = '" ++ (lot ++ "' AND "))), ?_⟩,
        ⟨"block = '", "' AND lot = '",
          "' AND hearing_date > '" ++ (since_date ++ "'"), ?_⟩⟩
      · simp only [queryOf, get_oath_violations, dateFieldOf]
        decide
      · simp only [queryOf, get_oath_violations, dateFieldOf, String.append_assoc]
        rw [append_split_key "' AND " "hearing_date" " > '"
          "' AND hearing_date > '" (by decide)]
      · simp only [queryOf, get_oath_violations, String.append_assoc]
  | dob_violations =>
      refine ⟨rfl, ?_,
        ⟨"block = '" ++ (block ++ ("' AND lot = '" ++ (lot ++ "' AND "))), ?_⟩,
        ⟨"block = '", "' AND lot = '",
          "' AND issue_date > '" ++ (since_date ++ "'"), ?_⟩⟩
      · simp only [queryOf, get_dob_violations, dateFieldOf]
        decide
      · simp only [queryOf, get_dob_violations, dateFieldOf, String.append_assoc]
        rw [append_split_key "' AND " "issue_date" " > '"
          "' AND issue_date > '" (by decide)]
      · simp only [queryOf, get_dob_violations, String.append_assoc]

/-- C7: a failed request is caught and yields the empty record list,
and a cycle in which any one source's request fails is identical — same
novel-record lists for every source, same final store, same report —
to the cycle in which that source returned an empty result, the failing
source's own novel list being empty.  Each source's response is
consumed exactly once per cycle, so there is no retry. -/
theorem claim_C7 (env : FetchEnv) (e1 e2 e3 e4 block lot now : String)
    (smtp : Bool) (store : Store) :
    make_request (Except.error e1) = ([] : List RawRecord)
    ∧ check_violations { env with r311 := Except.error e1 } block lot now smtp store
        = check_violations { env with r311 := Except.ok [] } block lot now smtp store
    ∧ (check_violations { env with r311 := Except.error e1 }
        block lot now smtp store).newViolations.c311 = []
    ∧ check_violations { env with rhpd := Except.error e2 } block lot now smtp store
        = check_violations { env with rhpd := Except.ok [] } block lot now smtp store
    ∧ (check_violations { env with rhpd := Except.error e2 }
        block lot now smtp store).newViolations.hpd = []
    ∧ check_violations { env with roath := Except.error e3 } block lot now smtp store
        = check_violations { env with roath := Except.ok [] } block lot now smtp store
    ∧ (check_violations { env with roath := Except.error e3 }
        block lot now smtp store).newViolations.oath = []
    ∧ check_violations { env with rdob := Except.error e4 } block lot now smtp store
        = check_violations { env with rdob := Except.ok [] } block lot now smtp store
    ∧ (check_violations { env with rdob := Except.error e4 }
        block lot now smtp store).newViolations.dob = [] :=
  ⟨rfl, rfl, rfl, rfl, rfl, rfl, rfl, rfl, rfl⟩

/-- C8: the store a cycle ends with, and the novel-record lists it
computed, are the same whether SMTP delivery succeeds or fails: every
tracking write committed before the delivery attempt survives a
delivery failure, and the failure (caught inside send_violation_report)
never propagates — check_violations is a total function of its
inputs. -/
theorem claim_C8 (env : FetchEnv) (block lot now : String) (store : Store) :
    (check_violations env block lot now false store).store
      = (check_violations env block lot now true store).store
    ∧ (check_violations env block lot now false store).newViolations
      = (check_violations env block lot now true store).newViolations :=
  ⟨rfl, rfl⟩

/-- C9: when all four per-source novel-record lists are empty,
send_violation_report takes its early return: the outcome is noReport,
no message is assembled and the SMTP collaborator is never contacted,
whatever the SMTP session would have done. -/
theorem claim_C9 (nv : NewViolations) (smtp : Bool)
    (h1 : nv.c311 = []) (h2 : nv.hpd = []) (h3 : nv.oath = []) (h4 : nv.dob = []) :
    send_violation_report nv smtp = ReportOutcome.noReport := by
  cases nv
  simp_all [send_violation_report, anyViolations]

/-- C9 witness: the all-empty violations map yields noReport. -/
theorem claim_C9_witness :
    send_violation_report ⟨[], [], [], []⟩ true = ReportOutcome.noReport :=
  claim_C9 ⟨[], [], [], []⟩ true rfl rfl rfl rfl

/-- C10 (code bug, failing evaluation): when the same unique_key "X1"
occurs twice in one 311 input — the first record lacking created_date —
both occurrences land in the novel-record output, because the first
record's INSERT OR IGNORE is silently skipped on its NULL
violation_date and so does not commit before the second record's
novelty check; the output's external ids are then not pairwise
distinct. -/
theorem claim_C10_duplicate_id_in_novel_output :
    ((check_source "311_complaints" "unique_key" "created_date" "833" "21" "t"
        [[("unique_key", "X1")], [("unique_key", "X1"), ("created_date", "2025-01-01")]]
        []).1.map (fun r => r.get "unique_key")) = [some "X1", some "X1"]
    ∧ ¬ ((check_source "311_complaints" "unique_key" "created_date" "833" "21" "t"
        [[("unique_key", "X1")], [("unique_key", "X1"), ("created_date", "2025-01-01")]]
        []).1.map (fun r => r.get "unique_key")).Nodup := by
  decide

end ViolationMonitor
